import Mathlib

/-! weather-display: the configuration table and the localisation table.

A shallow embedding of the two declaration headers of the sketch,
`settings.h` and `texts.h`, followed by the properties proved about them.

* `texts.h` is a preprocessor conditional over `LANG`: it is embedded as the
  function `texts_h` from the value of `LANG` to the set of definitions the
  header leaves behind (the object-like defines and the `weekdays` array).
* `settings.h` is a list of constants: each is embedded as a constant of the
  same name, with the same defining expression as in the header.
-/

namespace WeatherDisplay

/-! ## Character constants -/

/-- Value of a character constant with one or more characters, as the GNU
preprocessor computes it: the characters are read from left to right and each
one shifts the value accumulated so far by one byte. For the two-character tags
used here the value is below `2 ^ 15` and no truncation to `int` takes place. -/
def charConst (cs : List Char) : Int :=
  cs.foldl (fun acc c => acc * 256 + (c.toNat : Int)) 0

/-! ## settings.h, line 6 -/

/-- Language tag, `#define LANG 'DE'`. -/
def LANG : Int := charConst ['D', 'E']

/-! ## texts.h -/

/-- Icon code, `#define ICON_SUNNY 69`. -/
def ICON_SUNNY : Int := 69

/-- Icon code, `#define ICON_PARTLY_CLOUDY 65`. -/
def ICON_PARTLY_CLOUDY : Int := 65

/-- Icon code, `#define ICON_CLOUDY 64`. -/
def ICON_CLOUDY : Int := 64

/-- Icon code, `#define ICON_RAIN 67`. -/
def ICON_RAIN : Int := 67

/-- Icon code, `#define ICON_SNOW 68`. -/
def ICON_SNOW : Int := 68

/-- Replacement of an object-like define of `texts.h`: an integer literal or a
string literal. -/
inductive Body where
  | num (n : Int)
  | text (s : String)
  deriving DecidableEq, Repr

/-- The two branches of the conditional in `texts.h`. -/
inductive Locale where
  | EN
  | DE
  deriving DecidableEq, Repr

/-- The character constant a branch of the conditional compares `LANG` with. -/
def Locale.tag : Locale → Int
  | .EN => charConst ['E', 'N']
  | .DE => charConst ['D', 'E']

/-- The six label defines of a branch, in the order of the header. -/
def Locale.defines : Locale → List (String × Body)
  | .EN =>
    [("TEXT_CITY", .text "Berlin Friedenau"),
     ("TEXT_OUTSIDE", .text "Balcony:"),
     ("TEXT_TODAY", .text "Today"),
     ("TEXT_FORECAST", .text "Forecast"),
     ("TEXT_UPDATED", .text "updated:"),
     ("TEXT_SUN", .text "Sun:")]
  | .DE =>
    [("TEXT_CITY", .text "Berlin Friedenau"),
     ("TEXT_OUTSIDE", .text "Balkon:"),
     ("TEXT_TODAY", .text "Heute"),
     ("TEXT_FORECAST", .text "Vorschau"),
     ("TEXT_UPDATED", .text "aktual.:"),
     ("TEXT_SUN", .text "Sonne:")]

/-- The initialiser of `const char* weekdays[]` in a branch. -/
def Locale.weekdays : Locale → List String
  | .EN => ["Su.", "Mo.", "Tu.", "We.", "Th.", "Fr.", "Sa."]
  | .DE => ["So.", "Mo.", "Di.", "Mi.", "Do.", "Fr.", "Sa."]

/-- The five icon defines, which stand outside the conditional. -/
def iconDefines : List (String × Body) :=
  [("ICON_SUNNY", .num ICON_SUNNY),
   ("ICON_PARTLY_CLOUDY", .num ICON_PARTLY_CLOUDY),
   ("ICON_CLOUDY", .num ICON_CLOUDY),
   ("ICON_RAIN", .num ICON_RAIN),
   ("ICON_SNOW", .num ICON_SNOW)]

/-- The chain `#if LANG == 'EN'` / `#elif LANG == 'DE'` / `#endif`: the first
branch whose comparison holds is taken, and there is no `#else`. -/
def selectLocale (lang : Int) : Option Locale :=
  if lang = Locale.EN.tag then some .EN
  else if lang = Locale.DE.tag then some .DE
  else none

/-- What `texts.h` leaves behind once preprocessed: the defines in force and
the `weekdays` array, when one was declared. -/
structure Texts where
  defines : List (String × Body)
  weekdays : Option (List String)
  deriving DecidableEq, Repr

/-- The header `texts.h` as a function of the value of `LANG`. -/
def texts_h (lang : Int) : Texts :=
  match selectLocale lang with
  | some L => { defines := iconDefines ++ L.defines, weekdays := some L.weekdays }
  | none => { defines := iconDefines, weekdays := none }

/-- Replacement of the define `name`, when `name` is defined. -/
def Texts.value (t : Texts) (name : String) : Option Body :=
  t.defines.lookup name

/-- The names of the six labels. -/
def labelNames : List String :=
  ["TEXT_CITY", "TEXT_OUTSIDE", "TEXT_TODAY", "TEXT_FORECAST", "TEXT_UPDATED", "TEXT_SUN"]

/-- Result of looking an index up in the weekday table.
* `value s`: the index lies inside the array and `s` is the element there;
* `undefined`: the index lies outside the array; the header makes no check and
  the language defines no behaviour for such a subscript;
* `invalidArgument`: a reported failure. No expression over the array of
  `texts.h` yields it; it is here so that statements about a reported failure
  can be written down and decided. -/
inductive Outcome where
  | value (s : String)
  | undefined
  | invalidArgument
  deriving DecidableEq, Repr

/-- The subscript expression `a[i]` on an array with the elements `a`. -/
def subscript (a : List String) (i : Int) : Outcome :=
  if 0 ≤ i then
    match a[i.toNat]? with
    | some s => .value s
    | none => .undefined
  else .undefined

/-- The expression `weekdays[i]` when the branch of `L` was compiled. -/
def weekday (L : Locale) (i : Int) : Outcome :=
  subscript L.weekdays i

/-! ## settings.h

The constants initialised from the `SECRET_...` defines (network name and
credential, broker address, port, user and credential) take their values from
outside the two headers and are left out, as is the `float` constant
`lowVoltage`. Every other constant follows, under its own name. The layout
constants are of type `int`; all their values and all intermediate results lie
between 0 and 400, so the arithmetic of `int`, whatever its width, agrees on
them with that of the integers. -/

/-- Line 9: `const char* timezone = "Europe/Berlin";` -/
def timezone : String := "Europe/Berlin"

/-- Line 22: `const char* mqttClientID = "S-I-WeatherDisplay";` -/
def mqttClientID : String := "S-I-WeatherDisplay"

/-- Line 25: `const char* mqttTopicTemp = "weather-sensor/temp";` -/
def mqttTopicTemp : String := "weather-sensor/temp"

/-- Line 26: `const char* mqttTopicHumidity = "weather-sensor/humidity";` -/
def mqttTopicHumidity : String := "weather-sensor/humidity"

/-- Line 27: `const char* mqttTopicPressure = "weather-sensor/pressure";` -/
def mqttTopicPressure : String := "weather-sensor/pressure"

/-- Line 28: `const char* mqttTopicVoltage = "weather-sensor/voltage";` -/
def mqttTopicVoltage : String := "weather-sensor/voltage"

/-- Line 31: `const int updateIntervall = 20;`, commented "Update every 20 minutes". -/
def updateIntervall : Int := 20

/-- Line 32: `String owmLocationID = "2924770";` -/
def owmLocationID : String := "2924770"

/-- Line 33: `String owmLanguage = "de";` -/
def owmLanguage : String := "de"

/-- Line 34: `const bool owmIsMetric = true;` -/
def owmIsMetric : Bool := true

/-- Line 35: `const bool owmIs12HrStyle = false;` -/
def owmIs12HrStyle : Bool := false

/-- Line 38: `const int friendlyTemp = 0;` -/
def friendlyTemp : Int := 0

/-- Line 44: `const int headerH = 40;`, commented "followed by 3 lines". -/
def headerH : Int := 40

/-- Line 45: `const int todayH = 130;`, commented "followed by 2 lines". -/
def todayH : Int := 130

/-- Line 46: `const int todayHeaderH = 40;`. -/
def todayHeaderH : Int := 40

/-- Line 47: `const int tableSeparation = 15;`. -/
def tableSeparation : Int := 15

/-- Line 48: `const int forecastHeaderH = 20;`. -/
def forecastHeaderH : Int := 20

/-- Line 49: `const int daysH = 18;`. -/
def daysH : Int := 18

/-- Line 51: `const int nowW = 110;`, commented "followed by 5 x 1 line". -/
def nowW : Int := 110

/-- Line 52: `const int forecastW = 57;`, commented "should be (400 - nowW - 5) / 5". -/
def forecastW : Int := 57

/-- Line 53: `const int tempW = nowW;`. -/
def tempW : Int := nowW

/-- Line 54: `const int dayW = 96;`, commented "should be (400 - tempW - 3) / 3". -/
def dayW : Int := 96

/-- Line 55: `const int minDayW = 30;`. -/
def minDayW : Int := 30

/-- Line 57: `const int chartHeight = 80;`. -/
def chartHeight : Int := 80

/-- Line 58: `const int chartWidth = 296;`. -/
def chartWidth : Int := 296

/-- Line 59: `const int chartX = nowW + 4;`. -/
def chartX : Int := nowW + 4

/-- Line 60: `const int chartY = 218;`. -/
def chartY : Int := 218

/-- Line 62: `const int cityX = 10;`. -/
def cityX : Int := 10

/-- Line 63: `const int cityY = 26;`. -/
def cityY : Int := 26

/-- Line 64: `const int outsideX = 200;`. -/
def outsideX : Int := 200

/-- Line 65: `const int outsideY = 26;`. -/
def outsideY : Int := 26

/-- Line 66: `const int sensorLeft = 270;`. -/
def sensorLeft : Int := 270

/-- Line 67: `const int sensorRight = 330;`. -/
def sensorRight : Int := 330

/-- Line 68: `const int sensorOutsideTop = 16;`. -/
def sensorOutsideTop : Int := 16

/-- Line 69: `const int sensorOutsideBottom = 36;`. -/
def sensorOutsideBottom : Int := 36

/-- Line 70: `const int todayX = cityX;`. -/
def todayX : Int := cityX

/-- Line 71: `const int todayY = 70;`. -/
def todayY : Int := 70

/-- Line 72: `const int updatedX = outsideX;`. -/
def updatedX : Int := outsideX

/-- Line 73: `const int updatedY = 60;`. -/
def updatedY : Int := 60

/-- Line 74: `const int updatedTimeX = sensorLeft;`. -/
def updatedTimeX : Int := sensorLeft

/-- Line 75: `const int updatedTimeY = updatedY;`. -/
def updatedTimeY : Int := updatedY

/-- Line 76: `const int sunX = updatedX;`. -/
def sunX : Int := updatedX

/-- Line 77: `const int sunY = 80;`. -/
def sunY : Int := 80

/-- Line 78: `const int daylightX = updatedTimeX;`. -/
def daylightX : Int := updatedTimeX

/-- Line 79: `const int daylightY = sunY;`. -/
def daylightY : Int := sunY

/-- Line 80: `const int conditionX = cityX;`. -/
def conditionX : Int := cityX

/-- Line 81: `const int conditionY = 90;`. -/
def conditionY : Int := 90

/-- Line 82: `const int todayNowX = 36;`. -/
def todayNowX : Int := 36

/-- Line 83: `const int todayNowIconY = 145;`. -/
def todayNowIconY : Int := 145

/-- Line 84: `const int todayNowTempY = 162;`. -/
def todayNowTempY : Int := 162

/-- Line 85: `const int todayTableFirstX = nowW + 16;`. -/
def todayTableFirstX : Int := nowW + 16

/-- Line 86: `const int todayTableHoursY = 110;`. -/
def todayTableHoursY : Int := 110

/-- Line 87: `const int todayTableIconsY = 148;`. -/
def todayTableIconsY : Int := 148

/-- Line 88: `const int todayTableTempsY = 170;`. -/
def todayTableTempsY : Int := 170

/-- Line 89: `const int forecastX = cityX;`. -/
def forecastX : Int := cityX

/-- Line 90: `const int forecastY = 200;`. -/
def forecastY : Int := 200

/-- Line 91: `const int forecastTempX = nowW - 25;`. -/
def forecastTempX : Int := nowW - 25

/-- Line 92: `const int forecastMaxY = 234;`. -/
def forecastMaxY : Int := 234

/-- Line 93: `const int forecastMinY = 296;`. -/
def forecastMinY : Int := 296

/-- Line 94: `const int forecastTableFirstX = 120;`. -/
def forecastTableFirstX : Int := 120

/-- Line 95: `const int forecastTableDaysY = 266;`. -/
def forecastTableDaysY : Int := 266

/-! ## The computed layout constants as functions of the literal ones

Thirteen layout constants are initialised from other constants rather than
from a literal. `derivedLayout` repeats their initialisers over arbitrary values
of the six constants they refer to, in the arithmetic of an `int` of `w` bits. -/

/-- Least value of a two's-complement `int` of `w` bits. -/
def INT_MIN (w : Nat) : Int := -(2 ^ (w - 1))

/-- Greatest value of a two's-complement `int` of `w` bits. -/
def INT_MAX (w : Nat) : Int := 2 ^ (w - 1) - 1

/-- The value of `w` bits, read in two's complement, that is congruent to `x`:
what a sum or difference of two `int`s is folded to when it leaves the range of
`int`. Inside the range it is `x` itself. -/
def wrapInt (w : Nat) (x : Int) : Int :=
  (x + 2 ^ (w - 1)) % 2 ^ w - 2 ^ (w - 1)

/-- The six literal constants the computed ones refer to. -/
structure LayoutBase where
  nowW : Int
  cityX : Int
  outsideX : Int
  sensorLeft : Int
  updatedY : Int
  sunY : Int
  deriving DecidableEq, Repr

/-- The thirteen computed constants, in the order of the header. -/
structure LayoutDerived where
  tempW : Int
  chartX : Int
  todayX : Int
  updatedX : Int
  updatedTimeX : Int
  updatedTimeY : Int
  sunX : Int
  daylightX : Int
  daylightY : Int
  conditionX : Int
  todayTableFirstX : Int
  forecastX : Int
  forecastTempX : Int
  deriving DecidableEq, Repr

/-- The initialisers of lines 53, 59, 70, 72, 74, 75, 76, 78, 79, 80, 85, 89
and 91 of `settings.h`, each referring to the constant the header refers to
(`sunX` to `updatedX`, `daylightX` to `updatedTimeX`). -/
def derivedLayout (w : Nat) (b : LayoutBase) : LayoutDerived :=
  let tempW := b.nowW
  let chartX := wrapInt w (b.nowW + 4)
  let todayX := b.cityX
  let updatedX := b.outsideX
  let updatedTimeX := b.sensorLeft
  let updatedTimeY := b.updatedY
  let sunX := updatedX
  let daylightX := updatedTimeX
  let daylightY := b.sunY
  let conditionX := b.cityX
  let todayTableFirstX := wrapInt w (b.nowW + 16)
  let forecastX := b.cityX
  let forecastTempX := wrapInt w (b.nowW - 25)
  { tempW := tempW, chartX := chartX, todayX := todayX, updatedX := updatedX,
    updatedTimeX := updatedTimeX, updatedTimeY := updatedTimeY, sunX := sunX,
    daylightX := daylightX, daylightY := daylightY, conditionX := conditionX,
    todayTableFirstX := todayTableFirstX, forecastX := forecastX,
    forecastTempX := forecastTempX }

/-- The six literal constants with the values of the header. -/
def shippedBase : LayoutBase :=
  { nowW := nowW, cityX := cityX, outsideX := outsideX, sensorLeft := sensorLeft,
    updatedY := updatedY, sunY := sunY }

/-- The thirteen computed constants of the header. -/
def shippedDerived : LayoutDerived :=
  { tempW := tempW, chartX := chartX, todayX := todayX, updatedX := updatedX,
    updatedTimeX := updatedTimeX, updatedTimeY := updatedTimeY, sunX := sunX,
    daylightX := daylightX, daylightY := daylightY, conditionX := conditionX,
    todayTableFirstX := todayTableFirstX, forecastX := forecastX,
    forecastTempX := forecastTempX }

/-- The five icon codes, in the order of `texts.h`. -/
def iconCodes : List Int :=
  [ICON_SUNNY, ICON_PARTLY_CLOUDY, ICON_CLOUDY, ICON_RAIN, ICON_SNOW]

/-- The sixteen layout constants that are horizontal positions. -/
def xPositions : List Int :=
  [cityX, outsideX, sensorLeft, sensorRight, todayX, updatedX, updatedTimeX, sunX,
   daylightX, conditionX, todayNowX, todayTableFirstX, forecastX, forecastTempX,
   forecastTableFirstX, chartX]

/-! ## Auxiliary facts -/

/-- Inside the range of `int`, `wrapInt` changes nothing. -/
theorem wrapInt_eq_self (w : Nat) (x : Int) (hw : 1 ≤ w)
    (hlo : INT_MIN w ≤ x) (hhi : x ≤ INT_MAX w) : wrapInt w x = x := by
  obtain ⟨k, rfl⟩ : ∃ k, w = k + 1 := ⟨w - 1, by omega⟩
  unfold INT_MIN at hlo
  unfold INT_MAX at hhi
  unfold wrapInt
  simp only [Nat.add_sub_cancel] at hlo hhi ⊢
  have h2 : (2 : Int) ^ (k + 1) = 2 * 2 ^ k := by ring
  rw [h2]
  have hmod : (x + 2 ^ k) % (2 * 2 ^ k) = x + 2 ^ k :=
    Int.emod_eq_of_lt (by linarith) (by linarith)
  rw [hmod]
  ring

/-- An `int` has at least 16 bits, so its range contains `-32768 .. 32767`. -/
theorem int_range_16 (w : Nat) (hw : 16 ≤ w) :
    INT_MIN w ≤ -32768 ∧ 32767 ≤ INT_MAX w := by
  have h : (2 : Int) ^ 15 ≤ 2 ^ (w - 1) :=
    pow_le_pow_right₀ (by norm_num) (by omega)
  unfold INT_MIN INT_MAX
  constructor <;> linarith

/-! ## The localisation table -/

/-- C1: for each of the two locales and every index from 0 to 6, the subscript
on the weekday table yields the entry at that index of the locale's table; the
tables are the English and the German one, Sunday first, and the three examples
of the specification hold. -/
theorem weekday_in_range (L : Locale) (i : Int) (h0 : 0 ≤ i) (h6 : i ≤ 6) :
    (texts_h L.tag).weekdays = some L.weekdays ∧
    Locale.EN.weekdays = ["Su.", "Mo.", "Tu.", "We.", "Th.", "Fr.", "Sa."] ∧
    Locale.DE.weekdays = ["So.", "Mo.", "Di.", "Mi.", "Do.", "Fr.", "Sa."] ∧
    (∃ s, L.weekdays[i.toNat]? = some s ∧ weekday L i = Outcome.value s) ∧
    weekday Locale.DE 0 = Outcome.value "So." ∧
    weekday Locale.EN 0 = Outcome.value "Su." ∧
    weekday Locale.DE 6 = Outcome.value "Sa." := by
  refine ⟨by cases L <;> decide, rfl, rfl, ?_, by decide, by decide, by decide⟩
  have hi : i = 0 ∨ i = 1 ∨ i = 2 ∨ i = 3 ∨ i = 4 ∨ i = 5 ∨ i = 6 := by omega
  rcases hi with rfl | rfl | rfl | rfl | rfl | rfl | rfl <;> cases L <;>
    exact ⟨_, rfl, by decide⟩

/-- Witness of C1: the German table at index 3. -/
theorem weekday_in_range_witness :
    (0 : Int) ≤ 3 ∧ (3 : Int) ≤ 6 ∧
    ∃ s, Locale.DE.weekdays[(3 : Int).toNat]? = some s ∧
      weekday Locale.DE 3 = Outcome.value s :=
  ⟨by decide, by decide, (weekday_in_range Locale.DE 3 (by decide) (by decide)).2.2.2.1⟩

/-- C2: in each of the two locales every one of the six labels is defined with
a non-empty string, and the weekday table is declared with exactly seven
entries, none of them empty. -/
theorem labels_and_weekdays_present (L : Locale) :
    labelNames.length = 6 ∧ labelNames.Nodup ∧
    (∀ name ∈ labelNames,
      ∃ s, (texts_h L.tag).value name = some (Body.text s) ∧ s ≠ "") ∧
    ∃ ws, (texts_h L.tag).weekdays = some ws ∧ ws.length = 7 ∧ ∀ d ∈ ws, d ≠ "" := by
  refine ⟨rfl, by decide, ?_, ?_⟩
  · intro name hname
    simp only [labelNames, List.mem_cons, List.mem_singleton, List.not_mem_nil,
      or_false] at hname
    rcases hname with rfl | rfl | rfl | rfl | rfl | rfl <;> cases L <;>
      exact ⟨_, rfl, by decide⟩
  · cases L
    · exact ⟨Locale.EN.weekdays, by decide, rfl, by decide⟩
    · exact ⟨Locale.DE.weekdays, by decide, rfl, by decide⟩

/-- Witness of C2: the German label for "today" is defined and not empty. -/
theorem labels_and_weekdays_present_witness :
    ∃ s, (texts_h Locale.DE.tag).value "TEXT_TODAY" = some (Body.text s) ∧ s ≠ "" :=
  (labels_and_weekdays_present Locale.DE).2.2.1 "TEXT_TODAY" (by decide)

/-- C3: the conditional of `texts.h` takes exactly one branch for a tag among
`EN` and `DE` (the English one for `EN`, the German one for `DE`, and no tag
equals both), and for every other tag it takes none: no label is defined and no
weekday table is declared. With `LANG` as set in `settings.h` the German branch
is taken, so that `TEXT_TODAY` is "Heute" and the first weekday is "So.". -/
theorem locale_selection (t : Int) :
    selectLocale Locale.EN.tag = some Locale.EN ∧
    selectLocale Locale.DE.tag = some Locale.DE ∧
    Locale.EN.tag ≠ Locale.DE.tag ∧
    ¬ (t = Locale.EN.tag ∧ t = Locale.DE.tag) ∧
    (∀ L : Locale, selectLocale t = some L ↔ t = L.tag) ∧
    (∀ L : Locale, texts_h L.tag =
      { defines := iconDefines ++ L.defines, weekdays := some L.weekdays }) ∧
    (t ≠ Locale.EN.tag ∧ t ≠ Locale.DE.tag →
      selectLocale t = none ∧ (texts_h t).weekdays = none ∧
      ∀ name ∈ labelNames, (texts_h t).value name = none) ∧
    selectLocale LANG = some Locale.DE ∧
    (texts_h LANG).value "TEXT_TODAY" = some (Body.text "Heute") ∧
    (texts_h LANG).weekdays = some Locale.DE.weekdays ∧
    Locale.DE.weekdays[0]? = some "So." := by
  have hne : Locale.EN.tag ≠ Locale.DE.tag := by decide
  refine ⟨by decide, by decide, hne, ?_, ?_, ?_, ?_, by decide, by decide, by decide,
    by decide⟩
  · rintro ⟨h1, h2⟩
    exact hne (h1.symm.trans h2)
  · intro L
    unfold selectLocale
    cases L
    · by_cases h : t = Locale.EN.tag
      · simp [h]
      · simp [h]
    · by_cases h : t = Locale.EN.tag
      · simp [h, hne]
      · simp [h]
  · intro L
    cases L <;> decide
  · rintro ⟨h1, h2⟩
    have hs : selectLocale t = none := by simp [selectLocale, h1, h2]
    refine ⟨hs, by simp [texts_h, hs], ?_⟩
    intro name hname
    simp only [labelNames, List.mem_cons, List.mem_singleton, List.not_mem_nil,
      or_false] at hname
    rcases hname with rfl | rfl | rfl | rfl | rfl | rfl <;>
      simp only [texts_h, hs, Texts.value] <;> decide

/-- Witness of C3: the tag 0, which `LANG` has when it is not defined at all,
selects no branch. -/
theorem locale_selection_witness :
    selectLocale 0 = none ∧ (texts_h 0).weekdays = none ∧
    ∀ name ∈ labelNames, (texts_h 0).value name = none :=
  (locale_selection 0).2.2.2.2.2.2.1 ⟨by decide, by decide⟩

/-- C4, counterexample: at index 7 of the German table the subscript is
outside the array and its result is undefined; it is not a reported
invalid-argument failure. -/
theorem weekday_seven_not_invalidArgument :
    (6 : Int) < 7 ∧ weekday Locale.DE 7 = Outcome.undefined ∧
    ¬ weekday Locale.DE 7 = Outcome.invalidArgument := by
  decide

/-- C4, amended: each weekday table has exactly seven entries, so an index
below 0 or above 6 selects no entry of it: the subscript there is undefined, and
at no index at all is an invalid-argument failure reported. -/
theorem weekday_out_of_range (L : Locale) (i : Int) (h : i < 0 ∨ 6 < i) :
    L.weekdays.length = 7 ∧ weekday L i = Outcome.undefined ∧
    (∀ s, weekday L i ≠ Outcome.value s) ∧
    ∀ j : Int, weekday L j ≠ Outcome.invalidArgument := by
  have hlen : L.weekdays.length = 7 := by cases L <;> rfl
  have hu : weekday L i = Outcome.undefined := by
    unfold weekday subscript
    rcases h with h | h
    · simp [show ¬ (0 ≤ i) by omega]
    · have hnone : L.weekdays[i.toNat]? = none := by
        apply List.getElem?_eq_none
        omega
      simp [show 0 ≤ i by omega, hnone]
  refine ⟨hlen, hu, ?_, ?_⟩
  · intro s
    rw [hu]
    simp
  · intro j
    unfold weekday subscript
    split
    · split <;> simp
    · simp

/-- Witness of C4, amended: the German table at index 7. -/
theorem weekday_out_of_range_witness :
    ((7 : Int) < 0 ∨ (6 : Int) < 7) ∧ weekday Locale.DE 7 = Outcome.undefined :=
  ⟨by decide, (weekday_out_of_range Locale.DE 7 (by decide)).2.1⟩

/-- C8: the five icon codes are defined whatever the value of `LANG`, they are
the integers 69, 65, 64, 67 and 68, none is negative and no two are equal, so
that the position in the list determines the code and the code the position. -/
theorem icon_codes_distinct (lang : Int) :
    (texts_h lang).value "ICON_SUNNY" = some (Body.num ICON_SUNNY) ∧
    (texts_h lang).value "ICON_PARTLY_CLOUDY" = some (Body.num ICON_PARTLY_CLOUDY) ∧
    (texts_h lang).value "ICON_CLOUDY" = some (Body.num ICON_CLOUDY) ∧
    (texts_h lang).value "ICON_RAIN" = some (Body.num ICON_RAIN) ∧
    (texts_h lang).value "ICON_SNOW" = some (Body.num ICON_SNOW) ∧
    iconCodes = [69, 65, 64, 67, 68] ∧
    (∀ c ∈ iconCodes, 0 ≤ c) ∧
    iconCodes.Pairwise (fun a b => a ≠ b) ∧
    Function.Injective (fun k : Fin 5 => iconCodes.getD k.val 0) := by
  have hv : ∀ name v, iconDefines.lookup name = some v →
      (texts_h lang).value name = some v := by
    intro name v h
    unfold texts_h Texts.value
    cases selectLocale lang with
    | none => exact h
    | some L => simp [List.lookup_append, h]
  refine ⟨hv _ _ (by decide), hv _ _ (by decide), hv _ _ (by decide), hv _ _ (by decide),
    hv _ _ (by decide), rfl, by decide, by decide, ?_⟩
  intro a b
  revert a b
  decide

/-! ## The configuration table -/

/-- C9: the constants of `settings.h` carry the documented values: the client
identifier, the temperature topic, the update interval of 20 minutes, the
location identifier, the language of the weather service, the metric flag set
and the 12-hour flag not set; the client identifier and the four topics are not
empty, and no two of the four topics are equal. -/
theorem shipped_configuration :
    mqttClientID = "S-I-WeatherDisplay" ∧
    mqttTopicTemp = "weather-sensor/temp" ∧
    updateIntervall = 20 ∧
    owmLocationID = "2924770" ∧
    owmLanguage = "de" ∧
    owmIsMetric = true ∧
    owmIs12HrStyle = false ∧
    mqttClientID ≠ "" ∧
    (∀ t ∈ [mqttTopicTemp, mqttTopicHumidity, mqttTopicPressure, mqttTopicVoltage],
      t ≠ "") ∧
    [mqttTopicTemp, mqttTopicHumidity, mqttTopicPressure, mqttTopicVoltage].Pairwise
      (fun a b => a ≠ b) := by
  refine ⟨rfl, rfl, rfl, rfl, rfl, rfl, rfl, by decide, by decide, by decide⟩

/-- C5: every computed layout constant equals its defining formula over the
constants it refers to, whatever values those have: the nine copies hold their
source, and `chartX`, `todayTableFirstX` and `forecastTempX` are `nowW + 4`,
`nowW + 16` and `nowW - 25` in the arithmetic of `int`, which are the integers
`nowW + 4`, `nowW + 16` and `nowW - 25` whenever these lie in the range of
`int`. For the values of the header `tempW` is 110, `chartX` 114,
`todayTableFirstX` 126 and `forecastTempX` 85. -/
theorem derived_layout_formulas (w : Nat) (b : LayoutBase) :
    (derivedLayout w b).tempW = b.nowW ∧
    (derivedLayout w b).todayX = b.cityX ∧
    (derivedLayout w b).forecastX = b.cityX ∧
    (derivedLayout w b).conditionX = b.cityX ∧
    (derivedLayout w b).updatedX = b.outsideX ∧
    (derivedLayout w b).sunX = b.outsideX ∧
    (derivedLayout w b).updatedTimeX = b.sensorLeft ∧
    (derivedLayout w b).daylightX = b.sensorLeft ∧
    (derivedLayout w b).updatedTimeY = b.updatedY ∧
    (derivedLayout w b).daylightY = b.sunY ∧
    (derivedLayout w b).chartX = wrapInt w (b.nowW + 4) ∧
    (derivedLayout w b).todayTableFirstX = wrapInt w (b.nowW + 16) ∧
    (derivedLayout w b).forecastTempX = wrapInt w (b.nowW - 25) ∧
    (INT_MIN w + 25 ≤ b.nowW → b.nowW ≤ INT_MAX w - 16 →
      (derivedLayout w b).chartX = b.nowW + 4 ∧
      (derivedLayout w b).todayTableFirstX = b.nowW + 16 ∧
      (derivedLayout w b).forecastTempX = b.nowW - 25) ∧
    (16 ≤ w → derivedLayout w shippedBase = shippedDerived) ∧
    tempW = nowW ∧ chartX = nowW + 4 ∧ todayTableFirstX = nowW + 16 ∧
    forecastTempX = nowW - 25 ∧
    todayX = cityX ∧ forecastX = cityX ∧ conditionX = cityX ∧
    updatedX = outsideX ∧ sunX = outsideX ∧
    updatedTimeX = sensorLeft ∧ daylightX = sensorLeft ∧
    updatedTimeY = updatedY ∧ daylightY = sunY ∧
    tempW = 110 ∧ chartX = 114 ∧ todayTableFirstX = 126 ∧ forecastTempX = 85 := by
  refine ⟨rfl, rfl, rfl, rfl, rfl, rfl, rfl, rfl, rfl, rfl, rfl, rfl, rfl, ?_, ?_,
    rfl, rfl, rfl, rfl, rfl, rfl, rfl, rfl, rfl, rfl, rfl, rfl, rfl, rfl, rfl, rfl, rfl⟩
  · intro hlo hhi
    have h1 : 1 ≤ w := by
      rcases Nat.eq_zero_or_pos w with rfl | h
      · norm_num [INT_MIN, INT_MAX] at hlo hhi
        linarith
      · exact h
    exact ⟨wrapInt_eq_self w _ h1 (by linarith) (by linarith),
      wrapInt_eq_self w _ h1 (by linarith) (by linarith),
      wrapInt_eq_self w _ h1 (by linarith) (by linarith)⟩
  · intro hw
    have h1 : 1 ≤ w := by omega
    obtain ⟨hmin, hmax⟩ := int_range_16 w hw
    have s1 : wrapInt w (nowW + 4) = nowW + 4 :=
      wrapInt_eq_self w _ h1 (by rw [show nowW + 4 = 114 from rfl]; linarith)
        (by rw [show nowW + 4 = 114 from rfl]; linarith)
    have s2 : wrapInt w (nowW + 16) = nowW + 16 :=
      wrapInt_eq_self w _ h1 (by rw [show nowW + 16 = 126 from rfl]; linarith)
        (by rw [show nowW + 16 = 126 from rfl]; linarith)
    have s3 : wrapInt w (nowW - 25) = nowW - 25 :=
      wrapInt_eq_self w _ h1 (by rw [show nowW - 25 = 85 from rfl]; linarith)
        (by rw [show nowW - 25 = 85 from rfl]; linarith)
    simp only [derivedLayout, shippedBase, shippedDerived, s1, s2, s3]
    rfl

/-- Witness of C5: with the values of the header on an `int` of 32 bits the
three sums and differences lie in the range of `int`. -/
theorem derived_layout_formulas_witness :
    INT_MIN 32 + 25 ≤ shippedBase.nowW ∧ shippedBase.nowW ≤ INT_MAX 32 - 16 ∧
    (derivedLayout 32 shippedBase).chartX = shippedBase.nowW + 4 ∧
    (derivedLayout 32 shippedBase).todayTableFirstX = shippedBase.nowW + 16 ∧
    (derivedLayout 32 shippedBase).forecastTempX = shippedBase.nowW - 25 ∧
    derivedLayout 32 shippedBase = shippedDerived :=
  have h := (derived_layout_formulas 32 shippedBase).2.2.2.2.2.2.2.2.2.2.2.2.2
  have h3 := h.1 (by decide) (by decide)
  ⟨by decide, by decide, h3.1, h3.2.1, h3.2.2, h.2.1 (by decide)⟩

/-- C6: the header sets `dayW` to 96, while the formula of its own comment,
`(400 - tempW - 3) / 3` with the division of `int`, gives 95; with 96 the
temperature column, three day columns and three separator lines take 401
pixels, one more than the canvas has. -/
theorem dayW_differs_from_formula :
    tempW = 110 ∧ dayW = 96 ∧ Int.tdiv (400 - tempW - 3) 3 = 95 ∧
    dayW ≠ Int.tdiv (400 - tempW - 3) 3 ∧
    tempW + 3 * dayW + 3 = 401 ∧
    tempW + 3 * Int.tdiv (400 - tempW - 3) 3 + 3 ≤ 400 := by
  decide

/-- C7: `forecastW` equals `(400 - nowW - 5) / 5` with the division of `int`,
and the now column, five forecast columns and five separator lines of one pixel
fill the 400 pixels of the canvas exactly. -/
theorem forecastW_fills_canvas :
    nowW = 110 ∧ forecastW = 57 ∧
    forecastW = Int.tdiv (400 - nowW - 5) 5 ∧
    nowW + 5 * forecastW + 5 = 400 := by
  decide

/-- C10, counterexample: the chart starts at 114 and is 296 wide, so its right
edge is at 410, beyond the 400 pixels of the canvas. -/
theorem chart_exceeds_canvas :
    chartX = 114 ∧ chartWidth = 296 ∧ chartX + chartWidth = 410 ∧
    ¬ chartX + chartWidth ≤ 400 := by
  decide

/-- C10, amended: each of the sixteen horizontal positions lies in `[0, 400)`,
`sensorLeft` is less than `sensorRight`, the chart starts on the canvas and is
narrower than it, and its right edge `chartX + chartWidth` is at 410. -/
theorem x_positions_on_canvas :
    xPositions.length = 16 ∧
    (∀ x ∈ xPositions, 0 ≤ x ∧ x < 400) ∧
    sensorLeft < sensorRight ∧
    0 ≤ chartX ∧ chartX < 400 ∧ 0 < chartWidth ∧ chartWidth < 400 ∧
    chartX + chartWidth = 410 := by
  decide

end WeatherDisplay
